import Mathlib

/-!
# Verification of the iterm2-mcp-server command dispatcher

Shallow embedding of `src/index.ts` of the iterm2-mcp-server repository.

The TypeScript file defines:
* `runPythonClient` — spawns the Python iTerm2 client and, in the `close`
  handler, turns (stdout, stderr, exit code) into a resolved JSON value or a
  rejection (lines 49-64).  The pure decision logic of that handler is
  embedded as `closeHandler`, parameterised over the JSON parser.
* `formatPaneList` — a pure formatter for the `list` result (lines 75-118),
  embedded as `formatPaneList` (the three nested `for` loops become
  `List.foldl` over named step functions).
* the `CallToolRequestSchema` handler (lines 281-618) — a `switch` over the
  tool name with per-tool validation, a call to the Python client, and a
  `try`/`catch` that rethrows `McpError` and converts every other thrown
  error into a response with `isError: true`.  The `try` body is embedded as
  `dispatchTry` and the whole handler as `handleCallTool`.  The collaborator
  (`runPythonClient`) is passed in as a function from the argument list to
  `Except String PythonResult` (`.error` models a rejected promise, `.ok` a
  resolved JSON result).  Each embedding also records the list of
  collaborator invocations, so that "the external collaborator is never
  invoked" is expressible.

JavaScript-isms are modelled explicitly:
* optional string fields are `Option String`; interpolating a possibly
  missing field (`${result.x}`) renders `"undefined"` (`interp`);
  `x || d` is `jsOr`; truthiness of an optional string (`if (x)`) is
  `truthy`; truthiness of an optional boolean is `truthyB`;
* `!sessionId` on `string | undefined` is true exactly for `undefined` and
  `""`, i.e. `(o.getD "") = ""`;
* the unchecked cast `data.windows as Array<...>` is modelled by the typed
  field `windows` of `PythonResult`; the `result.location as {...}` access
  on a missing field, which in JS throws a `TypeError` when the first
  property is read, is modelled by an explicit `JsError.plain` branch.

The Python client (`python/iterm2_client.py`) is not part of the sources;
the side-pane resolution algorithm it implements is modelled from the spec
(see `resolveSide` below).
-/

namespace ITerm2

/-- One pane (session) as reported by the Python client inside a `list`
result: 1-based index, native id, shorthand, name, cwd, job, current flag. -/
structure SessionInfo where
  index : Nat
  id : String
  shorthand : String
  name : String
  cwd : String
  job : String
  is_current : Bool
deriving Repr, DecidableEq

/-- One tab: 1-based index, native id, ordered panes. -/
structure TabInfo where
  index : Nat
  id : String
  sessions : List SessionInfo
deriving Repr, DecidableEq

/-- One window: 1-based index, native id, ordered tabs. -/
structure WindowInfo where
  index : Nat
  id : String
  tabs : List TabInfo
deriving Repr, DecidableEq

/-- The `location` object of `side-pane` / `current` results
(`{window, tab, pane}`, 1-based numbers). -/
structure Location where
  window : Int
  tab : Int
  pane : Int
deriving Repr, DecidableEq

/-- The parsed JSON result of the Python client (`PythonResult` in
`index.ts`: `{error?, message?, [key: string]: unknown}`).  The fields the
dispatcher actually reads are given explicitly; every optional field is an
`Option`; `error` is the truthiness of the `error` field (the client sends
`{error: true, message}` on failure). -/
structure PythonResult where
  error : Bool := false
  message : Option String := none
  shorthand : Option String := none
  name : Option String := none
  cwd : Option String := none
  job : Option String := none
  contents : Option String := none
  position : Option String := none
  current_shorthand : Option String := none
  text_sent : Option String := none
  description : Option String := none
  original_shorthand : Option String := none
  new_session_id : Option String := none
  split_direction : Option String := none
  newline : Option Bool := none
  iterm2_module_installed : Option Bool := none
  api_enabled : Option Bool := none
  in_iterm_session : Option Bool := none
  ready : Option Bool := none
  location : Option Location := none
  windows : List WindowInfo := []
deriving Repr, DecidableEq

/-- JS template interpolation of a possibly missing string field:
`undefined` renders as the string "undefined". -/
def interp (o : Option String) : String := o.getD "undefined"

/-- JS `x || d` on a `string | undefined`: the default is taken for
`undefined` and for the empty string. -/
def jsOr (o : Option String) (d : String) : String :=
  if o.getD "" = "" then d else o.getD ""

/-- The separator `"=".repeat(60)`. -/
def sep60 : String := String.mk (List.replicate 60 '=')

/-- Body of the innermost loop of `formatPaneList` (lines 107-113): append
one session's lines to the accumulated output. -/
def formatSessionStep (output : String) (session : SessionInfo) : String :=
  let marker := if session.is_current then " <-- YOU ARE HERE" else ""
  let output := output ++ "    " ++ session.shorthand ++ marker ++ "\n"
  let output := if session.name ≠ "" then output ++ "      Name: " ++ session.name ++ "\n" else output
  let output := if session.cwd ≠ "" then output ++ "      CWD:  " ++ session.cwd ++ "\n" else output
  if session.job ≠ "" then output ++ "      Job:  " ++ session.job ++ "\n" else output

/-- Body of the tab loop of `formatPaneList` (lines 104-114). -/
def formatTabStep (output : String) (tab : TabInfo) : String :=
  (tab.sessions).foldl formatSessionStep
    (output ++ "  [Tab " ++ toString tab.index ++ "]\n")

/-- Body of the window loop of `formatPaneList` (lines 101-115). -/
def formatWindowStep (output : String) (window : WindowInfo) : String :=
  (window.tabs).foldl formatTabStep
    (output ++ "\n[Window " ++ toString window.index ++ "]\n")

/-- `formatPaneList` (lines 75-118): header, separator line, optional
"You are here" line, then the window/tab/session loops. -/
def formatPaneList (data : PythonResult) : String :=
  let output := "iTerm2 Panes:\n"
  let output := output ++ sep60 ++ "\n"
  let output :=
    if data.current_shorthand.getD "" ≠ "" then
      output ++ "You are here: " ++ data.current_shorthand.getD "" ++ "\n"
    else output
  (data.windows).foldl formatWindowStep output

/-- Success text of `iterm2_side_pane` (lines 306-312). -/
def sidePaneText (result : PythonResult) (location : Location) : String :=
  "Side Pane:\n"
    ++ "- Shorthand: " ++ interp result.shorthand ++ "\n"
    ++ "- Position: " ++ interp result.position ++ " of current pane ("
    ++ interp result.current_shorthand ++ ")\n"
    ++ "- Name: " ++ jsOr result.name "(unnamed)" ++ "\n"
    ++ "- Working Directory: " ++ jsOr result.cwd "N/A" ++ "\n"
    ++ "- Running Job: " ++ jsOr result.job "N/A" ++ "\n"
    ++ "- Location: Window " ++ toString location.window
    ++ ", Tab " ++ toString location.tab
    ++ ", Pane " ++ toString location.pane ++ "\n"

/-- Success text of `iterm2_status` (lines 333-345). -/
def statusText (result : PythonResult) : String :=
  "iTerm2 API Status:\n"
    ++ "- Python iterm2 module: "
    ++ (if result.iterm2_module_installed.getD false then "Installed" else "NOT INSTALLED") ++ "\n"
    ++ "- API enabled in preferences: "
    ++ (if result.api_enabled.getD false then "Yes" else "No") ++ "\n"
    ++ "- Running in iTerm2: "
    ++ (if result.in_iterm_session.getD false then "Yes" else "No") ++ "\n"
    ++ "- Ready to use: "
    ++ (if result.ready.getD false then "Yes" else "No") ++ "\n"
    ++ (if result.iterm2_module_installed.getD false then ""
        else "\nTo install the iterm2 module: pip install iterm2")
    ++ (if result.api_enabled.getD false then ""
        else "\nTo enable the API: Use iterm2_enable_api tool, then restart iTerm2")

/-- Success text of `iterm2_read_pane` (lines 399-404). -/
def readPaneText (result : PythonResult) : String :=
  "Pane Contents (" ++ interp result.shorthand ++ "):\n"
    ++ sep60 ++ "\n"
    ++ (if result.name.getD "" ≠ "" then "Name: " ++ interp result.name ++ "\n" else "")
    ++ (if result.cwd.getD "" ≠ "" then "CWD: " ++ interp result.cwd ++ "\n" else "")
    ++ sep60 ++ "\n\n"
    ++ interp result.contents

/-- Success text of `iterm2_current_pane` (lines 431-436). -/
def currentPaneText (result : PythonResult) (location : Location) : String :=
  "Current Pane:\n"
    ++ "- Shorthand: " ++ interp result.shorthand ++ "\n"
    ++ "- Name: " ++ jsOr result.name "(unnamed)" ++ "\n"
    ++ "- Working Directory: " ++ jsOr result.cwd "N/A" ++ "\n"
    ++ "- Running Job: " ++ jsOr result.job "N/A" ++ "\n"
    ++ "- Location: Window " ++ toString location.window
    ++ ", Tab " ++ toString location.tab
    ++ ", Pane " ++ toString location.pane ++ "\n"

/-- Success text of `iterm2_send_text` (lines 503-505). -/
def sendTextText (result : PythonResult) : String :=
  "Text sent to pane " ++ interp result.shorthand ++ ":\n"
    ++ "- Text: \"" ++ interp result.text_sent ++ "\"\n"
    ++ "- Newline: " ++ (if result.newline.getD false then "Yes (Enter pressed)" else "No")

/-- Success text of `iterm2_send_control_character` (line 550). -/
def sendControlText (result : PythonResult) : String :=
  "Sent " ++ interp result.description ++ " to pane " ++ interp result.shorthand

/-- Success text of `iterm2_split_pane` (lines 587-591). -/
def splitPaneText (result : PythonResult) : String :=
  "Pane split successfully!\n"
    ++ "- Original pane: " ++ interp result.original_shorthand ++ "\n"
    ++ "- New pane ID: " ++ interp result.new_session_id ++ "\n"
    ++ "- Direction: " ++ interp result.split_direction ++ "\n"
    ++ "\nUse iterm2_list_panes to see the new pane's shorthand."

/-- The two MCP error codes the handler uses (`ErrorCode.InvalidParams`,
`ErrorCode.MethodNotFound`). -/
inductive ErrorCode where
  | invalidParams
  | methodNotFound
deriving Repr, DecidableEq

/-- `McpError`: a protocol-shape fault thrown to the transport layer. -/
structure McpError where
  code : ErrorCode
  message : String
deriving Repr, DecidableEq

/-- An error thrown inside the handler body: either an `McpError` or an
ordinary JS `Error` carrying a message (a rejected `runPythonClient`
promise, or a runtime `TypeError`). -/
inductive JsError where
  | mcp (code : ErrorCode) (message : String)
  | plain (message : String)
deriving Repr, DecidableEq

/-- One `{type: "text", text}` content item. -/
structure TextContent where
  text : String
deriving Repr, DecidableEq

/-- A tool response: `{content, isError?}`.  `isError := none` models the
field being absent from the returned object. -/
structure ToolResponse where
  content : List TextContent
  isError : Option Bool := none
deriving Repr, DecidableEq

/-- The `arguments` object of a tool call, with the optional fields the
handler destructures.  A missing `arguments` object is all-`none`. -/
structure ToolArgs where
  session_id : Option String := none
  text : Option String := none
  newline : Option Bool := none
  control : Option String := none
  vertical : Option Bool := none
deriving Repr, DecidableEq

/-- Decidable equality for `Except`, needed to decide concrete handler
outcomes. -/
instance exceptDecEq {ε α : Type} [DecidableEq ε] [DecidableEq α] :
    DecidableEq (Except ε α) := fun x y =>
  match x, y with
  | .error a, .error b =>
    if h : a = b then .isTrue (by rw [h])
    else .isFalse (by intro hc; cases hc; exact h rfl)
  | .error _, .ok _ => .isFalse (by intro hc; cases hc)
  | .ok _, .error _ => .isFalse (by intro hc; cases hc)
  | .ok a, .ok b =>
    if h : a = b then .isTrue (by rw [h])
    else .isFalse (by intro hc; cases hc; exact h rfl)

/-- Outcome of the `try` body: the value returned or the error thrown,
together with the list of collaborator invocations made. -/
structure DispatchTrace where
  outcome : Except JsError ToolResponse
  calls : List (List String)
deriving Repr, DecidableEq

/-- The business-failure branch every tool case uses when the collaborator
result has `error` set: `{content: [{type: "text", text: "Error: " +
message}]}` — note that no `isError` field is attached. -/
def errorEnvelope (result : PythonResult) : ToolResponse :=
  { content := [{ text := "Error: " ++ interp result.message }], isError := none }

/-- A plain success response `{content: [{type: "text", text}]}`. -/
def textResponse (text : String) : ToolResponse :=
  { content := [{ text := text }], isError := none }

/-- Modelled message of the JS `TypeError` raised when a success result
lacks the `location` object and the template reads `location.window`. -/
def locationTypeError : String := "TypeError: cannot read location of undefined"

/-- The `try` body of the `CallToolRequestSchema` handler (lines 284-600):
the `switch` on the tool name.  `collab` is `runPythonClient`; a `.error`
from it is a rejected promise, i.e. a thrown JS `Error`. -/
def dispatchTry (collab : List String → Except String PythonResult)
    (name : String) (args : ToolArgs) : DispatchTrace :=
  if name = "iterm2_side_pane" then
    match collab ["side-pane"] with
    | .error m => ⟨.error (.plain m), [["side-pane"]]⟩
    | .ok result =>
      if result.error then ⟨.ok (errorEnvelope result), [["side-pane"]]⟩
      else
        match result.location with
        | none => ⟨.error (.plain locationTypeError), [["side-pane"]]⟩
        | some location =>
          ⟨.ok (textResponse (sidePaneText result location)), [["side-pane"]]⟩
  else if name = "iterm2_status" then
    match collab ["status"] with
    | .error m => ⟨.error (.plain m), [["status"]]⟩
    | .ok result =>
      if result.error then ⟨.ok (errorEnvelope result), [["status"]]⟩
      else ⟨.ok (textResponse (statusText result)), [["status"]]⟩
  else if name = "iterm2_list_panes" then
    match collab ["list"] with
    | .error m => ⟨.error (.plain m), [["list"]]⟩
    | .ok result =>
      if result.error then ⟨.ok (errorEnvelope result), [["list"]]⟩
      else ⟨.ok (textResponse (formatPaneList result)), [["list"]]⟩
  else if name = "iterm2_read_pane" then
    if args.session_id.getD "" = "" then
      ⟨.error (.mcp .invalidParams "session_id is required"), []⟩
    else
      let sessionId := args.session_id.getD ""
      match collab ["read", sessionId] with
      | .error m => ⟨.error (.plain m), [["read", sessionId]]⟩
      | .ok result =>
        if result.error then ⟨.ok (errorEnvelope result), [["read", sessionId]]⟩
        else ⟨.ok (textResponse (readPaneText result)), [["read", sessionId]]⟩
  else if name = "iterm2_current_pane" then
    match collab ["current"] with
    | .error m => ⟨.error (.plain m), [["current"]]⟩
    | .ok result =>
      if result.error then ⟨.ok (errorEnvelope result), [["current"]]⟩
      else
        match result.location with
        | none => ⟨.error (.plain locationTypeError), [["current"]]⟩
        | some location =>
          ⟨.ok (textResponse (currentPaneText result location)), [["current"]]⟩
  else if name = "iterm2_enable_api" then
    match collab ["enable"] with
    | .error m => ⟨.error (.plain m), [["enable"]]⟩
    | .ok result =>
      if result.error then ⟨.ok (errorEnvelope result), [["enable"]]⟩
      else ⟨.ok (textResponse (interp result.message)), [["enable"]]⟩
  else if name = "iterm2_send_text" then
    if args.session_id.getD "" = "" then
      ⟨.error (.mcp .invalidParams "session_id is required"), []⟩
    else if args.text.getD "" = "" then
      ⟨.error (.mcp .invalidParams "text is required"), []⟩
    else
      let sessionId := args.session_id.getD ""
      let text := args.text.getD ""
      let pythonArgs :=
        if args.newline = some false then ["send-text", sessionId, text, "--no-newline"]
        else ["send-text", sessionId, text]
      match collab pythonArgs with
      | .error m => ⟨.error (.plain m), [pythonArgs]⟩
      | .ok result =>
        if result.error then ⟨.ok (errorEnvelope result), [pythonArgs]⟩
        else ⟨.ok (textResponse (sendTextText result)), [pythonArgs]⟩
  else if name = "iterm2_send_control_character" then
    if args.session_id.getD "" = "" then
      ⟨.error (.mcp .invalidParams "session_id is required"), []⟩
    else if args.control.getD "" = "" then
      ⟨.error (.mcp .invalidParams "control is required"), []⟩
    else
      let sessionId := args.session_id.getD ""
      let control := args.control.getD ""
      match collab ["send-control", sessionId, control] with
      | .error m => ⟨.error (.plain m), [["send-control", sessionId, control]]⟩
      | .ok result =>
        if result.error then
          ⟨.ok (errorEnvelope result), [["send-control", sessionId, control]]⟩
        else
          ⟨.ok (textResponse (sendControlText result)),
            [["send-control", sessionId, control]]⟩
  else if name = "iterm2_split_pane" then
    if args.session_id.getD "" = "" then
      ⟨.error (.mcp .invalidParams "session_id is required"), []⟩
    else
      let sessionId := args.session_id.getD ""
      let pythonArgs :=
        if args.vertical = some true then ["split", sessionId, "--vertical"]
        else ["split", sessionId]
      match collab pythonArgs with
      | .error m => ⟨.error (.plain m), [pythonArgs]⟩
      | .ok result =>
        if result.error then ⟨.ok (errorEnvelope result), [pythonArgs]⟩
        else ⟨.ok (textResponse (splitPaneText result)), [pythonArgs]⟩
  else
    ⟨.error (.mcp .methodNotFound ("Unknown tool: " ++ name)), []⟩

/-- Result of the whole handler: either a response returned to the
transport, or a thrown `McpError`, together with the collaborator calls. -/
structure CallOutcome where
  result : Except McpError ToolResponse
  calls : List (List String)
deriving Repr, DecidableEq

/-- The full `CallToolRequestSchema` handler (lines 281-618): runs the
`try` body, rethrows `McpError`, and converts any other thrown error into
`{content: [{type: "text", text: "Error: " + message}], isError: true}`. -/
def handleCallTool (collab : List String → Except String PythonResult)
    (name : String) (args : ToolArgs) : CallOutcome :=
  let t := dispatchTry collab name args
  match t.outcome with
  | .ok response => ⟨.ok response, t.calls⟩
  | .error (.mcp code message) => ⟨.error ⟨code, message⟩, t.calls⟩
  | .error (.plain message) =>
    ⟨.ok { content := [{ text := "Error: " ++ message }], isError := some true }, t.calls⟩

/-- The nine tool names the `switch` recognises. -/
def toolNames : List String :=
  ["iterm2_side_pane", "iterm2_status", "iterm2_list_panes", "iterm2_read_pane",
   "iterm2_current_pane", "iterm2_enable_api", "iterm2_send_text",
   "iterm2_send_control_character", "iterm2_split_pane"]

/-- Outcome of the `close` handler of `runPythonClient`: the promise is
resolved with a parsed result or rejected with an error message. -/
inductive CloseOutcome where
  | resolved (result : PythonResult)
  | rejected (message : String)
deriving Repr, DecidableEq

/-- JS string interpolation of the `code : number | null` parameter. -/
def codeToString : Option Int → String
  | none => "null"
  | some n => toString n

/-- The `close` handler of `runPythonClient` (lines 49-64), parameterised
over `JSON.parse` (`parseJson s = none` models a parse exception).  `stdout`
and `stderr` are the accumulated streams, `code` the exit code. -/
def closeHandler (parseJson : String → Option PythonResult)
    (stdout stderr : String) (code : Option Int) : CloseOutcome :=
  if stdout ≠ "" then
    match parseJson stdout with
    | some result => .resolved result
    | none => .rejected ("Failed to parse Python output: " ++ stdout)
  else if stderr ≠ "" then .rejected stderr
  else if code ≠ some 0 then
    .rejected ("Python process exited with code " ++ codeToString code)
  else .rejected "No output from Python process"

/-- The resolution failures of the Address Resolver (spec section 7):
`Malformed`, `NotFound`, `NoCurrentSession`, `NoSidePane`, plus the
defensive internal-consistency report of `resolveCurrent` when more than
one pane is flagged current. -/
inductive ResolutionError where
  | malformed
  | notFound (level : String)
  | noCurrentSession
  | noSidePane
  | inconsistentCurrent
deriving Repr, DecidableEq

/-- Modelled from the spec: the panes of a Topology Snapshot flagged
"is current", in snapshot order (the Python client implementing the
resolver is not among the sources). -/
def currentPanes (windows : List WindowInfo) : List SessionInfo :=
  ((windows.map (fun w => w.tabs.map
    (fun t => t.sessions.filter (fun s => s.is_current)))).flatten).flatten

/-- Modelled from the spec: `resolveCurrent(topology)` returns the single
pane flagged "is current"; fails with `NoCurrentSession` when none is
flagged, and reports an internal consistency error when more than one is. -/
def resolveCurrent (windows : List WindowInfo) :
    Except ResolutionError SessionInfo :=
  match currentPanes windows with
  | [] => .error .noCurrentSession
  | [p] => .ok p
  | _ => .error .inconsistentCurrent

/-- Modelled from the spec: the tab containing the current pane. -/
def tabOfCurrent (windows : List WindowInfo) : Option TabInfo :=
  ((windows.map (fun w => w.tabs)).flatten).find?
    (fun t => t.sessions.any (fun s => s.is_current))

/-- Modelled from the spec: `resolveSide(topology)` first resolves the
current pane, locates it within its tab's pane sequence; if a pane exists
immediately after it, returns it with position "next"; otherwise, if a
pane exists immediately before it, returns it with position "previous";
if the tab has only one pane, fails with `NoSidePane`. -/
def resolveSide (windows : List WindowInfo) :
    Except ResolutionError (SessionInfo × String) :=
  match resolveCurrent windows with
  | .error e => .error e
  | .ok _ =>
    match tabOfCurrent windows with
    | none => .error .noCurrentSession
    | some tab =>
      let i := tab.sessions.findIdx (fun s => s.is_current)
      match tab.sessions[i + 1]? with
      | some p => .ok (p, "next")
      | none =>
        if 1 ≤ i then
          match tab.sessions[i - 1]? with
          | some p => .ok (p, "previous")
          | none => .error .noSidePane
        else .error .noSidePane

/-- Concatenation of a list of strings (spec-side rendering helper). -/
def joinTexts : List String → String
  | [] => ""
  | s :: rest => s ++ joinTexts rest

/-- Render a list of lines, terminating each with a newline. -/
def renderLines (lines : List String) : String :=
  joinTexts (lines.map (fun line => line ++ "\n"))

/-- Spec-side description of a pane entry in the listing: the shorthand
line carries the current-pane marker exactly when `is_current` is set, and
the name/cwd/job lines are present exactly when the field is non-empty. -/
def sessionSpecLines (session : SessionInfo) : List String :=
  ["    " ++ session.shorthand
    ++ (if session.is_current then " <-- YOU ARE HERE" else "")]
  ++ (if session.name = "" then [] else ["      Name: " ++ session.name])
  ++ (if session.cwd = "" then [] else ["      CWD:  " ++ session.cwd])
  ++ (if session.job = "" then [] else ["      Job:  " ++ session.job])

/-- Spec-side description of a tab block: the tab header followed by its
panes in snapshot order. -/
def tabSpecLines (tab : TabInfo) : List String :=
  ("  [Tab " ++ toString tab.index ++ "]")
    :: (tab.sessions.map sessionSpecLines).flatten

/-- Spec-side description of a window block: a blank line, the window
header, then its tabs in snapshot order. -/
def windowSpecLines (window : WindowInfo) : List String :=
  "" :: ("[Window " ++ toString window.index ++ "]")
    :: (window.tabs.map tabSpecLines).flatten

/-- Spec-side description of the whole listing: title, separator, optional
"You are here" line, then the windows in snapshot order. -/
def paneListSpecLines (data : PythonResult) : List String :=
  ["iTerm2 Panes:", sep60]
  ++ (if data.current_shorthand.getD "" = "" then []
      else ["You are here: " ++ data.current_shorthand.getD ""])
  ++ (data.windows.map windowSpecLines).flatten

/-- A collaborator stub that rejects every invocation; the distinctive
message shows in the response exactly when the call reached it. -/
def collabRejecting : List String → Except String PythonResult :=
  fun _ => .error "collab reached"

/-- A collaborator stub that resolves every invocation with a
business-failure result (`{error: true, message: "boom"}`). -/
def collabBusinessError : List String → Except String PythonResult :=
  fun _ => .ok { error := true, message := some "boom" }

/-- A small concrete pane for witnesses: index, shorthand and id coincide,
optional attributes empty. -/
def mkPane (i : Nat) (sh : String) (cur : Bool) : SessionInfo :=
  ⟨i, sh, sh, "", "", "", cur⟩

/-- A concrete one-window listing result for witnesses. -/
def examplePaneData : PythonResult :=
  { current_shorthand := some "t1p1",
    windows := [⟨1, "w1", [⟨1, "tab1", [mkPane 1 "t1p1" true]⟩]⟩] }

/-- C10: in `runPythonClient`'s completion handling the branches are tried
in fixed priority order: non-empty stdout resolves with the parsed JSON
when parsing succeeds (whatever the exit code) and rejects with a
parse-failure error otherwise; stderr is consulted only when stdout is
empty; a non-zero (or null) exit code is reported only when both streams
are empty; and with empty streams and exit code zero it rejects with
"No output from Python process". -/
theorem closeHandler_priority (parseJson : String → Option PythonResult)
    (stdout stderr : String) (code : Option Int) :
    (∀ result, stdout ≠ "" → parseJson stdout = some result →
      closeHandler parseJson stdout stderr code = .resolved result)
    ∧ (stdout ≠ "" → parseJson stdout = none →
      closeHandler parseJson stdout stderr code
        = .rejected ("Failed to parse Python output: " ++ stdout))
    ∧ (stdout = "" → stderr ≠ "" →
      closeHandler parseJson stdout stderr code = .rejected stderr)
    ∧ (stdout = "" → stderr = "" → code ≠ some 0 →
      closeHandler parseJson stdout stderr code
        = .rejected ("Python process exited with code " ++ codeToString code))
    ∧ (stdout = "" → stderr = "" → code = some 0 →
      closeHandler parseJson stdout stderr code
        = .rejected "No output from Python process") := by
  refine ⟨?_, ?_, ?_, ?_, ?_⟩ <;> intros <;> simp_all [closeHandler]

/-- Witness for C10: a parse success with non-zero exit code still
resolves, and empty streams with exit code 3 report the exit code. -/
theorem closeHandler_priority_witness :
    closeHandler (fun _ => some {}) "x" "" (some 1) = .resolved {}
    ∧ closeHandler (fun _ => none) "" "" (some 3)
        = .rejected ("Python process exited with code " ++ codeToString (some 3)) :=
  ⟨(closeHandler_priority (fun _ => some ({} : PythonResult)) "x" "" (some 1)).1
      {} (by decide) rfl,
   (closeHandler_priority (fun _ => none) "" "" (some 3)).2.2.2.1
      rfl rfl (by decide)⟩

/-- C1: the claim says a non-empty `control` outside {c, d, z, l} is
rejected with an invalid-params validation failure and the collaborator is
never invoked.  The code only rejects a missing/empty `control`
(line 525) and performs no enum check — although the tool's own declared
input schema (line 246) restricts `control` to `["c","d","z","l"]`.  At
`control = "x"` the dispatcher invokes the collaborator with
`["send-control", "t1p1", "x"]` (the recorded call list) and returns its
outcome instead of throwing invalid-params: here the rejecting stub's
message comes back as an `isError` envelope, not a protocol fault. -/
theorem sendControl_invalid_enum_forwarded :
    handleCallTool collabRejecting "iterm2_send_control_character"
        { session_id := some "t1p1", control := some "x" }
      = ⟨.ok { content := [{ text := "Error: collab reached" }], isError := some true },
         [["send-control", "t1p1", "x"]]⟩ := by rfl

/-- C2 counterexample: when the collaborator resolves with
`{error: true, message: "boom"}`, the `iterm2_read_pane` response is a
successful-protocol response whose `isError` field is absent (`none`),
not `isError: true` as the claim states. -/
theorem readPane_error_lacks_isError_flag :
    (handleCallTool collabBusinessError "iterm2_read_pane"
        { session_id := some "t1p1" }).result
      = .ok { content := [{ text := "Error: boom" }], isError := none }
    ∧ ({ content := [{ text := "Error: boom" }], isError := none }
        : ToolResponse).isError ≠ some true :=
  ⟨by rfl, by decide⟩

/-- C2 (amended): for every tool call in which the collaborator resolves
with a result whose `error` field is set, the dispatcher's response is a
successful-protocol response carrying the human-readable text
`"Error: " ++ message` — but without any `isError` field; `isError: true`
is attached only to errors thrown inside the handler and caught at the
dispatcher boundary. -/
theorem collab_error_business_envelope
    (collab : List String → Except String PythonResult) (r : PythonResult)
    (hc : ∀ a, collab a = .ok r) (hr : r.error = true)
    (sid txt ctl : String) (hsid : sid ≠ "") (htxt : txt ≠ "") (hctl : ctl ≠ "") :
    (errorEnvelope r).isError = none
    ∧ (errorEnvelope r).content = [{ text := "Error: " ++ interp r.message }]
    ∧ (handleCallTool collab "iterm2_side_pane" {}).result = .ok (errorEnvelope r)
    ∧ (handleCallTool collab "iterm2_status" {}).result = .ok (errorEnvelope r)
    ∧ (handleCallTool collab "iterm2_list_panes" {}).result = .ok (errorEnvelope r)
    ∧ (handleCallTool collab "iterm2_read_pane"
        { session_id := some sid }).result = .ok (errorEnvelope r)
    ∧ (handleCallTool collab "iterm2_current_pane" {}).result = .ok (errorEnvelope r)
    ∧ (handleCallTool collab "iterm2_enable_api" {}).result = .ok (errorEnvelope r)
    ∧ (handleCallTool collab "iterm2_send_text"
        { session_id := some sid, text := some txt }).result = .ok (errorEnvelope r)
    ∧ (handleCallTool collab "iterm2_send_control_character"
        { session_id := some sid, control := some ctl }).result = .ok (errorEnvelope r)
    ∧ (handleCallTool collab "iterm2_split_pane"
        { session_id := some sid }).result = .ok (errorEnvelope r) := by
  refine ⟨rfl, rfl, ?_, ?_, ?_, ?_, ?_, ?_, ?_, ?_, ?_⟩ <;>
    simp [handleCallTool, dispatchTry, hc, hr, hsid, htxt, hctl]

/-- Witness for C2 (amended): the split-pane call with the concrete
business-failure collaborator produces exactly the flagless envelope. -/
theorem collab_error_business_envelope_witness :
    (handleCallTool collabBusinessError "iterm2_split_pane"
        { session_id := some "t1p1" }).result
      = .ok (errorEnvelope { error := true, message := some "boom" }) :=
  (collab_error_business_envelope collabBusinessError
      { error := true, message := some "boom" } (fun _ => rfl) rfl
      "t1p1" "ls" "c" (by decide) (by decide)
      (by decide)).2.2.2.2.2.2.2.2.2.2

/-- C3: each address-bearing command (`read_pane`, `send_text`,
`send_control_character`, `split_pane`) with a missing or empty
`session_id` throws an invalid-params `McpError` with no collaborator call
(the recorded call list is empty); and `send_text` with a non-empty
`session_id` but missing or empty `text` throws invalid-params for `text`,
again with no collaborator call. -/
theorem missing_args_invalid_params
    (collab : List String → Except String PythonResult) (args : ToolArgs)
    (hsid : args.session_id.getD "" = "") :
    handleCallTool collab "iterm2_read_pane" args
      = ⟨.error ⟨.invalidParams, "session_id is required"⟩, []⟩
    ∧ handleCallTool collab "iterm2_send_text" args
      = ⟨.error ⟨.invalidParams, "session_id is required"⟩, []⟩
    ∧ handleCallTool collab "iterm2_send_control_character" args
      = ⟨.error ⟨.invalidParams, "session_id is required"⟩, []⟩
    ∧ handleCallTool collab "iterm2_split_pane" args
      = ⟨.error ⟨.invalidParams, "session_id is required"⟩, []⟩
    ∧ (∀ args2 : ToolArgs, args2.session_id.getD "" ≠ "" →
        args2.text.getD "" = "" →
        handleCallTool collab "iterm2_send_text" args2
          = ⟨.error ⟨.invalidParams, "text is required"⟩, []⟩) := by
  refine ⟨?_, ?_, ?_, ?_, ?_⟩ <;> intros <;>
    simp_all [handleCallTool, dispatchTry]

/-- Witness for C3: `read_pane` with `session_id: ""` and `send_text` with
`session_id: "t1p1"` but no `text` both throw invalid-params without any
collaborator call. -/
theorem missing_args_invalid_params_witness :
    handleCallTool collabRejecting "iterm2_read_pane" { session_id := some "" }
      = ⟨.error ⟨.invalidParams, "session_id is required"⟩, []⟩
    ∧ handleCallTool collabRejecting "iterm2_send_text"
        { session_id := some "t1p1" }
      = ⟨.error ⟨.invalidParams, "text is required"⟩, []⟩ :=
  ⟨(missing_args_invalid_params collabRejecting { session_id := some "" } rfl).1,
   (missing_args_invalid_params collabRejecting { session_id := some "" } rfl).2.2.2.2
      { session_id := some "t1p1" } (by decide) rfl⟩

/-- C4: failures thrown inside the handler body that are not `McpError`s
are caught at the dispatcher boundary and converted into a response with
`isError: true` and the failure's message text; `McpError`s (protocol-shape
violations) propagate as thrown faults; an unknown tool name throws a
method-not-found `McpError` before any collaborator call. -/
theorem dispatcher_boundary_policy
    (collab : List String → Except String PythonResult)
    (name : String) (args : ToolArgs) :
    (∀ m, (dispatchTry collab name args).outcome = .error (.plain m) →
      (handleCallTool collab name args).result
        = .ok { content := [{ text := "Error: " ++ m }], isError := some true })
    ∧ (∀ c m, (dispatchTry collab name args).outcome = .error (.mcp c m) →
      (handleCallTool collab name args).result = .error ⟨c, m⟩)
    ∧ (name ∉ toolNames →
      handleCallTool collab name args
        = ⟨.error ⟨.methodNotFound, "Unknown tool: " ++ name⟩, []⟩) := by
  refine ⟨?_, ?_, ?_⟩
  · intro m h
    simp [handleCallTool, h]
  · intro c m h
    simp [handleCallTool, h]
  · intro h
    simp only [toolNames, List.mem_cons, List.not_mem_nil, or_false, not_or] at h
    obtain ⟨h1, h2, h3, h4, h5, h6, h7, h8, h9⟩ := h
    simp [handleCallTool, dispatchTry, h1, h2, h3, h4, h5, h6, h7, h8, h9]

/-- Witness for C4: the name "iterm2_foo" is not a known tool and throws
the method-not-found fault with no collaborator call. -/
theorem dispatcher_boundary_policy_witness :
    "iterm2_foo" ∉ toolNames
    ∧ handleCallTool collabRejecting "iterm2_foo" {}
        = ⟨.error ⟨.methodNotFound, "Unknown tool: " ++ "iterm2_foo"⟩, []⟩ :=
  ⟨by decide,
   (dispatcher_boundary_policy collabRejecting "iterm2_foo" {}).2.2 (by decide)⟩

/-- C6: for a valid `send_text` invocation, omitting `newline` produces
exactly the same handler outcome (same collaborator invocation, same
result) as `newline: true`; the `--no-newline` flag is appended exactly
for `newline: false`. -/
theorem sendText_newline_default
    (collab : List String → Except String PythonResult)
    (sid txt : String) (hsid : sid ≠ "") (htxt : txt ≠ "") :
    handleCallTool collab "iterm2_send_text"
        { session_id := some sid, text := some txt, newline := none }
      = handleCallTool collab "iterm2_send_text"
        { session_id := some sid, text := some txt, newline := some true }
    ∧ (handleCallTool collab "iterm2_send_text"
        { session_id := some sid, text := some txt, newline := none }).calls
      = [["send-text", sid, txt]]
    ∧ (handleCallTool collab "iterm2_send_text"
        { session_id := some sid, text := some txt, newline := some false }).calls
      = [["send-text", sid, txt, "--no-newline"]] := by
  refine ⟨?_, ?_, ?_⟩ <;>
    simp only [handleCallTool, dispatchTry] <;>
    simp [hsid, htxt] <;>
    rcases collab ["send-text", sid, txt] with m | r <;>
    rcases collab ["send-text", sid, txt, "--no-newline"] with m2 | r2 <;>
    simp <;>
    split <;>
    simp <;>
    split <;>
    rfl

/-- Witness for C6: with the rejecting collaborator stub, omitting
`newline` equals `newline: true`, and the recorded invocations are as
stated. -/
theorem sendText_newline_default_witness :
    handleCallTool collabRejecting "iterm2_send_text"
        { session_id := some "t1p1", text := some "ls", newline := none }
      = handleCallTool collabRejecting "iterm2_send_text"
        { session_id := some "t1p1", text := some "ls", newline := some true }
    ∧ (handleCallTool collabRejecting "iterm2_send_text"
        { session_id := some "t1p1", text := some "ls", newline := none }).calls
      = [["send-text", "t1p1", "ls"]]
    ∧ (handleCallTool collabRejecting "iterm2_send_text"
        { session_id := some "t1p1", text := some "ls", newline := some false }).calls
      = [["send-text", "t1p1", "ls", "--no-newline"]] :=
  sendText_newline_default collabRejecting "t1p1" "ls" (by decide) (by decide)

/-- C7: for a valid `split_pane` invocation, omitting `vertical` produces
exactly the same handler outcome as `vertical: false`, and the
`--vertical` flag is part of the collaborator invocation if and only if
`vertical` is the boolean value `true`. -/
theorem splitPane_vertical_default
    (collab : List String → Except String PythonResult)
    (sid : String) (hsid : sid ≠ "") :
    handleCallTool collab "iterm2_split_pane"
        { session_id := some sid, vertical := none }
      = handleCallTool collab "iterm2_split_pane"
        { session_id := some sid, vertical := some false }
    ∧ (∀ v : Option Bool,
        (handleCallTool collab "iterm2_split_pane"
          { session_id := some sid, vertical := v }).calls
        = [if v = some true then ["split", sid, "--vertical"]
           else ["split", sid]]) := by
  constructor
  · simp only [handleCallTool, dispatchTry]
    simp [hsid]
  · intro v
    simp only [handleCallTool, dispatchTry]
    simp [hsid]
    by_cases hv : v = some true <;>
      simp [hv] <;>
      rcases collab ["split", sid, "--vertical"] with m | r <;>
      rcases collab ["split", sid] with m2 | r2 <;>
      simp <;>
      split <;>
      simp <;>
      split <;>
      rfl

/-- Witness for C7: with the rejecting collaborator stub, omitting
`vertical` equals `vertical: false`, and `vertical: true` appends the
`--vertical` flag. -/
theorem splitPane_vertical_default_witness :
    handleCallTool collabRejecting "iterm2_split_pane"
        { session_id := some "t1p1", vertical := none }
      = handleCallTool collabRejecting "iterm2_split_pane"
        { session_id := some "t1p1", vertical := some false }
    ∧ (handleCallTool collabRejecting "iterm2_split_pane"
        { session_id := some "t1p1", vertical := some true }).calls
      = [if (some true : Option Bool) = some true
         then ["split", "t1p1", "--vertical"] else ["split", "t1p1"]] :=
  ⟨(splitPane_vertical_default collabRejecting "t1p1" (by decide)).1,
   (splitPane_vertical_default collabRejecting "t1p1" (by decide)).2 (some true)⟩

/-- C9: the pane-list formatter is deterministic — equal input data yields
equal output strings.  (In this embedding `formatPaneList` is a plain
function of the `list` payload; it takes no collaborator argument and can
perform no validation, resolution or external call.) -/
theorem formatPaneList_deterministic (d1 d2 : PythonResult) (h : d1 = d2) :
    formatPaneList d1 = formatPaneList d2 := by rw [h]

/-- Witness for C9: determinism at a concrete listing payload. -/
theorem formatPaneList_deterministic_witness :
    formatPaneList examplePaneData = formatPaneList examplePaneData :=
  formatPaneList_deterministic examplePaneData examplePaneData rfl

/-- Merging the adjacent literals of a tab header line. -/
theorem appendMergeTab (x : String) : "]" ++ ("\n" ++ x) = "]\n" ++ x := by
  rw [← String.append_assoc]; simp

/-- Merging the adjacent literals of a window header line. -/
theorem appendMergeWindow (x : String) :
    "\n" ++ ("[Window " ++ x) = "\n[Window " ++ x := by
  rw [← String.append_assoc]; simp

/-- Merging the adjacent literals of the listing title line. -/
theorem appendMergeTitle (x : String) :
    "iTerm2 Panes:" ++ ("\n" ++ x) = "iTerm2 Panes:\n" ++ x := by
  rw [← String.append_assoc]; simp

/-- Merging the adjacent literals of the "You are here" line. -/
theorem appendMergeHere (x : String) :
    "\n" ++ ("You are here: " ++ x) = "\nYou are here: " ++ x := by
  rw [← String.append_assoc]; simp

/-- Merging the marker-and-newline literal with a following Name label. -/
theorem appendMergeMarkName (x : String) :
    " <-- YOU ARE HERE\n" ++ ("      Name: " ++ x)
      = " <-- YOU ARE HERE\n      Name: " ++ x := by
  rw [← String.append_assoc]; simp

/-- Merging the marker-and-newline literal with a following CWD label. -/
theorem appendMergeMarkCwd (x : String) :
    " <-- YOU ARE HERE\n" ++ ("      CWD:  " ++ x)
      = " <-- YOU ARE HERE\n      CWD:  " ++ x := by
  rw [← String.append_assoc]; simp

/-- Merging the marker-and-newline literal with a following Job label. -/
theorem appendMergeMarkJob (x : String) :
    " <-- YOU ARE HERE\n" ++ ("      Job:  " ++ x)
      = " <-- YOU ARE HERE\n      Job:  " ++ x := by
  rw [← String.append_assoc]; simp

/-- Merging a newline literal with a following Name label. -/
theorem appendMergeNlName (x : String) :
    "\n" ++ ("      Name: " ++ x) = "\n      Name: " ++ x := by
  rw [← String.append_assoc]; simp

/-- Merging a newline literal with a following CWD label. -/
theorem appendMergeNlCwd (x : String) :
    "\n" ++ ("      CWD:  " ++ x) = "\n      CWD:  " ++ x := by
  rw [← String.append_assoc]; simp

/-- Merging a newline literal with a following Job label. -/
theorem appendMergeNlJob (x : String) :
    "\n" ++ ("      Job:  " ++ x) = "\n      Job:  " ++ x := by
  rw [← String.append_assoc]; simp

/-- Rendering no lines yields the empty string. -/
theorem renderLines_nil : renderLines [] = "" := rfl

/-- Unfolding `renderLines` on a cons cell. -/
theorem renderLines_cons (a : String) (l : List String) :
    renderLines (a :: l) = (a ++ "\n") ++ renderLines l := by
  simp [renderLines, joinTexts]

/-- `joinTexts` distributes over list concatenation. -/
theorem joinTexts_append (l1 l2 : List String) :
    joinTexts (l1 ++ l2) = joinTexts l1 ++ joinTexts l2 := by
  induction l1 with
  | nil => simp [joinTexts]
  | cons s l ih => simp [joinTexts, ih, String.append_assoc]

/-- `renderLines` distributes over list concatenation. -/
theorem renderLines_append (l1 l2 : List String) :
    renderLines (l1 ++ l2) = renderLines l1 ++ renderLines l2 := by
  simp [renderLines, joinTexts_append]

/-- Rendering a flattened list of line blocks joins the rendered blocks. -/
theorem renderLines_flatten (ls : List (List String)) :
    renderLines ls.flatten = joinTexts (ls.map renderLines) := by
  induction ls with
  | nil => simp [renderLines, joinTexts]
  | cons l ls ih => simp [renderLines_append, joinTexts, ih]

/-- A fold whose step appends a per-element text appends the join of the
texts. -/
theorem foldl_append_step {α : Type} (step : String → α → String)
    (txt : α → String) (hstep : ∀ out a, step out a = out ++ txt a)
    (l : List α) (out : String) :
    l.foldl step out = out ++ joinTexts (l.map txt) := by
  induction l generalizing out with
  | nil => simp [joinTexts]
  | cons a l ih => simp [hstep, ih, joinTexts, String.append_assoc]

/-- The session loop body appends exactly the rendered spec lines of the
session. -/
theorem formatSessionStep_eq (out : String) (s : SessionInfo) :
    formatSessionStep out s = out ++ renderLines (sessionSpecLines s) := by
  unfold formatSessionStep sessionSpecLines
  cases hcur : s.is_current <;> by_cases h2 : s.name = "" <;>
    by_cases h3 : s.cwd = "" <;> by_cases h4 : s.job = "" <;>
    simp [hcur, h2, h3, h4, renderLines_cons, renderLines_append,
      renderLines_nil, String.append_assoc, appendMergeMarkName,
      appendMergeMarkCwd, appendMergeMarkJob, appendMergeNlName,
      appendMergeNlCwd, appendMergeNlJob]

/-- The tab loop body appends exactly the rendered spec lines of the
tab. -/
theorem formatTabStep_eq (out : String) (t : TabInfo) :
    formatTabStep out t = out ++ renderLines (tabSpecLines t) := by
  unfold formatTabStep tabSpecLines
  rw [foldl_append_step formatSessionStep
    (fun s => renderLines (sessionSpecLines s)) formatSessionStep_eq]
  simp [renderLines_cons, renderLines_flatten, List.map_map, Function.comp_def,
    String.append_assoc, appendMergeTab]

/-- The window loop body appends exactly the rendered spec lines of the
window. -/
theorem formatWindowStep_eq (out : String) (w : WindowInfo) :
    formatWindowStep out w = out ++ renderLines (windowSpecLines w) := by
  unfold formatWindowStep windowSpecLines
  rw [foldl_append_step formatTabStep
    (fun t => renderLines (tabSpecLines t)) formatTabStep_eq]
  simp [renderLines_cons, renderLines_flatten, List.map_map, Function.comp_def,
    String.append_assoc, appendMergeTab, appendMergeWindow]

/-- C8: the pane-list formatter renders exactly the spec-side line list:
title and separator, the optional "You are here" line, then the windows in
snapshot order, inside them the tabs in snapshot order, and for each pane
a line that carries the " <-- YOU ARE HERE" marker if and only if
`is_current` is set, followed by Name/CWD/Job lines exactly when the
corresponding field is non-empty (see `sessionSpecLines`,
`tabSpecLines`, `windowSpecLines`, `paneListSpecLines`). -/
theorem formatPaneList_refines_spec (data : PythonResult) :
    formatPaneList data = renderLines (paneListSpecLines data) := by
  unfold formatPaneList paneListSpecLines
  rw [foldl_append_step formatWindowStep
    (fun w => renderLines (windowSpecLines w)) formatWindowStep_eq]
  by_cases hcs : data.current_shorthand.getD "" = "" <;>
    simp [hcs, renderLines_cons, renderLines_append, renderLines_flatten,
      List.map_map, Function.comp_def, String.append_assoc, appendMergeTitle,
      appendMergeHere]

/-- Filtering on the current flag in a pane sequence with exactly one
current pane keeps exactly that pane. -/
theorem filter_current_sandwich (A B : List SessionInfo) (c : SessionInfo)
    (hc : c.is_current = true) (hA : ∀ s ∈ A, s.is_current = false)
    (hB : ∀ s ∈ B, s.is_current = false) :
    (A ++ c :: B).filter (fun s => s.is_current) = [c] := by
  have hA2 : A.filter (fun s => s.is_current) = [] :=
    List.filter_eq_nil_iff.mpr (fun a ha => by simp [hA a ha])
  have hB2 : B.filter (fun s => s.is_current) = [] :=
    List.filter_eq_nil_iff.mpr (fun a ha => by simp [hB a ha])
  simp [List.filter_append, List.filter_cons, hc, hA2, hB2]

/-- The index of the single current pane is the length of the prefix of
non-current panes before it. -/
theorem findIdx_current_sandwich (A : List SessionInfo) (c : SessionInfo)
    (B : List SessionInfo) (hA : ∀ s ∈ A, s.is_current = false)
    (hc : c.is_current = true) :
    (A ++ c :: B).findIdx (fun s => s.is_current) = A.length := by
  induction A with
  | nil => simp [List.findIdx_cons, hc]
  | cons a A ih =>
    have ha : a.is_current = false := hA a (by simp)
    simp [List.findIdx_cons, ha, ih (fun s hs => hA s (by simp [hs]))]

/-- C5: on a tab whose pane sequence is `A ++ c :: B` with `c` the single
current pane, `resolveSide` returns the pane immediately after `c` with
position "next" when one exists; otherwise the pane immediately before
`c` with position "previous" when one exists; and fails with `NoSidePane`
when the tab has exactly one pane.  Instantiated at [P1, P2, P3] this
gives P3/"next" when P2 is current and P2/"previous" when P3 is current
(see the witness). -/
theorem resolveSide_adjacent (wi ti : Nat) (wid tid : String)
    (A B : List SessionInfo) (c : SessionInfo)
    (hc : c.is_current = true)
    (hA : ∀ s ∈ A, s.is_current = false)
    (hB : ∀ s ∈ B, s.is_current = false) :
    (∀ b B2, B = b :: B2 →
      resolveSide [⟨wi, wid, [⟨ti, tid, A ++ c :: B⟩]⟩] = .ok (b, "next"))
    ∧ (∀ a A2, B = [] → A = A2 ++ [a] →
      resolveSide [⟨wi, wid, [⟨ti, tid, A ++ c :: B⟩]⟩] = .ok (a, "previous"))
    ∧ (B = [] → A = [] →
      resolveSide [⟨wi, wid, [⟨ti, tid, A ++ c :: B⟩]⟩] = .error .noSidePane) := by
  have hcur : resolveCurrent [⟨wi, wid, [⟨ti, tid, A ++ c :: B⟩]⟩] = .ok c := by
    simp [resolveCurrent, currentPanes, filter_current_sandwich A B c hc hA hB]
  have htab : tabOfCurrent [⟨wi, wid, [⟨ti, tid, A ++ c :: B⟩]⟩]
      = some ⟨ti, tid, A ++ c :: B⟩ := by
    simp [tabOfCurrent, List.find?_cons, List.any_append, List.any_cons, hc]
  have hidx : (A ++ c :: B).findIdx (fun s => s.is_current) = A.length :=
    findIdx_current_sandwich A c B hA hc
  refine ⟨?_, ?_, ?_⟩
  · rintro b B2 rfl
    simp only [resolveSide, hcur, htab, hidx]
    rw [List.getElem?_append_right (by omega)]
    simp
  · rintro a A2 rfl rfl
    simp only [resolveSide, hcur, htab, hidx]
    rw [List.getElem?_eq_none (by simp)]
    rw [if_pos (by simp)]
    rw [List.append_assoc]
    rw [List.getElem?_append_right (by simp)]
    simp
  · rintro rfl rfl
    simp only [resolveSide, hcur, htab, hidx]
    simp

/-- Witness for C5: on the pane sequence [P1, P2, P3] with P2 current the
side pane is P3 with position "next"; with P3 current it is P2 with
position "previous"; and a tab with exactly one pane fails with
`NoSidePane`. -/
theorem resolveSide_adjacent_witness :
    resolveSide [⟨1, "w1", [⟨1, "t1",
        [mkPane 1 "t1p1" false, mkPane 2 "t1p2" true, mkPane 3 "t1p3" false]⟩]⟩]
      = .ok (mkPane 3 "t1p3" false, "next")
    ∧ resolveSide [⟨1, "w1", [⟨1, "t1",
        [mkPane 1 "t1p1" false, mkPane 2 "t1p2" false, mkPane 3 "t1p3" true]⟩]⟩]
      = .ok (mkPane 2 "t1p2" false, "previous")
    ∧ resolveSide [⟨1, "w1", [⟨1, "t1", [mkPane 1 "t1p1" true]⟩]⟩]
      = .error .noSidePane :=
  ⟨(resolveSide_adjacent 1 1 "w1" "t1" [mkPane 1 "t1p1" false]
      [mkPane 3 "t1p3" false] (mkPane 2 "t1p2" true) rfl
      (by decide) (by decide)).1 (mkPane 3 "t1p3" false) [] rfl,
   (resolveSide_adjacent 1 1 "w1" "t1"
      [mkPane 1 "t1p1" false, mkPane 2 "t1p2" false] [] (mkPane 3 "t1p3" true)
      rfl (by decide) (by decide)).2.1 (mkPane 2 "t1p2" false)
      [mkPane 1 "t1p1" false] rfl rfl,
   (resolveSide_adjacent 1 1 "w1" "t1" [] [] (mkPane 1 "t1p1" true)
      rfl (by decide) (by decide)).2.2 rfl rfl⟩
